import Mathlib

/-!
Verification development for the micro-service migration pipeline.

The definitions below are a shallow embedding of the Python sources:

* `app/agents/orchestrator.py` — `Task`, `TaskQueue`, `AgentOrchestrator`
  (`process_codebase`, `_generate_follow_up_tasks`,
  `_ensure_complete_file_mapping`, `_validate_complete_coverage`);
* `app/agents/analyzer.py` — `CodeAnalysisAgent._map_files_to_service`;
* `app/agents/developer.py` — `DeveloperAgent.refactor_code`,
  `_robust_json_extraction`, `_extract_json_from_response`,
  `_clean_json_string`;
* `app/agents/templates/*` — `BaseTemplate.create_service_files`,
  `TemplateFactory` and the concrete language templates.

Python dictionaries are modelled as association lists with insert-or-replace
semantics (`dictInsert`), Python strings by Lean `String`.  Python's string
primitives (`find`, `rfind`, slicing with negative indices, `strip`, `split`,
`in`) are reproduced explicitly below, because the extraction bug analysed in
this file depends on their exact behaviour.  Calls into the external
text-generation service and into Python's `json.loads` are oracles
(parameters of the embedding): the repository does not implement them.
-/

namespace MSM

/-! ## Python string primitives -/

/-- Whitespace characters recognised by Python's `str.strip` / `str.split`
(the ASCII ones; the sources only ever meet ASCII whitespace). -/
def pyIsSpace (c : Char) : Bool :=
  c = ' ' || c = '\t' || c = '\n' || c = '\r' || c = '\x0b' || c = '\x0c'

/-- First position at or after `pos` where `needle` occurs in `hay`,
scanning left to right (the core of Python's `str.find`). -/
def findSubAux (needle : List Char) : List Char → Nat → Option Nat
  | hay, pos =>
    if needle.isPrefixOf hay then some pos
    else match hay with
      | [] => none
      | _ :: t => findSubAux needle t (pos + 1)

/-- Python's `sub in s`. -/
def pyContains (s sub : String) : Bool :=
  (findSubAux sub.data s.data 0).isSome

/-- Python's `s.find(sub)`: first index of `sub`, or `-1`. -/
def pyFind (s sub : String) : Int :=
  match findSubAux sub.data s.data 0 with
  | some i => (i : Int)
  | none => -1

/-- Python's slice-index normalisation for a string of length `n`:
negative indices count from the end and everything is clamped to `[0, n]`. -/
def pyNormIdx (n : Nat) (i : Int) : Nat :=
  if i < 0 then ((n : Int) + i).toNat else min i.toNat n

/-- Python's `s.find(sub, start)` (used by the source with a possibly
negative `start`): the search begins at the normalised start index. -/
def pyFindFrom (s sub : String) (start : Int) : Int :=
  let st := pyNormIdx s.data.length start
  match findSubAux sub.data (s.data.drop st) st with
  | some i => (i : Int)
  | none => -1

/-- Python's `s.rfind(sub)`: last index of `sub`, or `-1`. -/
def pyRFind (s sub : String) : Int :=
  let rec lastHit : List Char → Nat → Option Nat → Option Nat
    | hay, pos, best =>
      let best' := if sub.data.isPrefixOf hay then some pos else best
      match hay with
      | [] => best'
      | _ :: t => lastHit t (pos + 1) best'
  match lastHit s.data 0 none with
  | some i => (i : Int)
  | none => -1

/-- Python's `s[a:]` (negative `a` counts from the end). -/
def pySliceFrom (s : String) (a : Int) : String :=
  ⟨s.data.drop (pyNormIdx s.data.length a)⟩

/-- Python's `s[a:b]`. -/
def pySlice (s : String) (a b : Int) : String :=
  let n := s.data.length
  ⟨(s.data.take (pyNormIdx n b)).drop (pyNormIdx n a)⟩

/-- Python's `s.strip()`. -/
def pyStrip (s : String) : String :=
  ⟨((s.data.dropWhile pyIsSpace).reverse.dropWhile pyIsSpace).reverse⟩

/-- Python's `s.lower()` (ASCII case folding, all the sources need). -/
def pyLower (s : String) : String :=
  ⟨s.data.map Char.toLower⟩

/-- Core of `pySplitWs`: accumulate the current word (reversed) and cut at
whitespace. -/
def splitWsAux : List Char → List Char → List String
  | [], cur => if cur.isEmpty then [] else [⟨cur.reverse⟩]
  | c :: t, cur =>
    if pyIsSpace c then
      if cur.isEmpty then splitWsAux t [] else ⟨cur.reverse⟩ :: splitWsAux t []
    else splitWsAux t (c :: cur)

/-- Python's `s.split()` with no separator: split on whitespace runs,
discarding empty pieces. -/
def pySplitWs (s : String) : List String :=
  splitWsAux s.data []

/-- Core of `pySplitOn`. -/
def splitOnAux (sep : Char) : List Char → List Char → List String
  | [], cur => [⟨cur.reverse⟩]
  | c :: t, cur =>
    if c = sep then ⟨cur.reverse⟩ :: splitOnAux sep t [] else splitOnAux sep t (c :: cur)

/-- Python's `s.split(sep)` for a one-character separator (keeps empty
pieces). -/
def pySplitOn (s : String) (sep : Char) : List String :=
  splitOnAux sep s.data []

/-- Python's `s.startswith(p)`. -/
def pyStartsWith (s p : String) : Bool :=
  p.data.isPrefixOf s.data

/-- Python's `s.endswith(p)`. -/
def pyEndsWith (s p : String) : Bool :=
  p.data.isSuffixOf s.data

/-! ## Python dictionaries as association lists -/

/-- `d[k] = v` on a Python dict: replace in place when the key exists,
otherwise append (insertion order is preserved, as in CPython). -/
def dictInsert {α : Type} : List (String × α) → String → α → List (String × α)
  | [], k, v => [(k, v)]
  | (k', v') :: t, k, v =>
    if k' = k then (k, v) :: t else (k', v') :: dictInsert t k v

/-- `d.get(k)` on a Python dict. -/
def dictGet? {α : Type} (d : List (String × α)) (k : String) : Option α :=
  d.lookup k

/-- `k in d` on a Python dict. -/
def dictHasKey {α : Type} (d : List (String × α)) (k : String) : Bool :=
  (d.lookup k).isSome

/-! ## Data model

`FileInfo` is the value stored in `parsed_files` by
`CodeParser.parse_directory` (content, extension, size).  `FileRec` is one
generated-file record `{path, content}` of the developer schema.  `Service`
is a service-boundary dictionary as the orchestrator and analyzer read it
(`name`, `description`, `responsibilities`, `entities`, `apis`, `files`). -/

structure FileInfo where
  content : String
  extension : String
  size : Nat
deriving DecidableEq

structure FileRec where
  path : String
  content : String
deriving DecidableEq

structure Service where
  name : String
  description : String
  responsibilities : List String
  entities : List String
  apis : List String
  files : List String
deriving DecidableEq

/-! ## TaskQueue and Task (orchestrator.py lines 8-32)

`Task.__init__` computes `self.id = f"{agent}_{action}_{id(self)}"`.  The
CPython `id(self)` is modelled by an allocation token `pyid : Nat` handed out
by the caller; the loop model below threads a counter so every allocation in
one modelled run gets a fresh token.  (Whether CPython itself can ever hand
two tasks of one run the same `id(self)` — it can, after garbage collection —
is a memory-allocation question outside this embedding; see the discussion of
task-id uniqueness in the results.) -/

inductive TaskParams where
  /-- Params of the seed task: `{'repo_url': ...}`. -/
  | analyzeRepo (repo_url : String)
  /-- Params of the architect follow-up task: `{'analysis_results': result}`
  (opaque here: the follow-up generator never reads them back). -/
  | architectParams
  /-- Params of a developer follow-up task:
  `{'service_boundary': ..., 'original_code': ...}`. -/
  | developerParams (service_boundary : Service)
      (original_code : List (String × FileInfo))
deriving DecidableEq

structure Task where
  agent : String
  action : String
  params : TaskParams
  /-- Allocation token standing for CPython's `id(self)`. -/
  pyid : Nat
deriving DecidableEq

/-- The `id` attribute computed by `Task.__init__`. -/
def Task.tid (t : Task) : String :=
  t.agent ++ "_" ++ t.action ++ "_" ++ toString t.pyid

structure TaskQueue where
  tasks : List Task
deriving DecidableEq

/-- `TaskQueue.add_task`: `self.tasks.append(task)`. -/
def TaskQueue.add_task (q : TaskQueue) (t : Task) : TaskQueue :=
  ⟨q.tasks ++ [t]⟩

/-- `TaskQueue.get_next_task`: pop the head (`self.tasks.pop(0)`), or return
`None` on an empty queue (no exception). -/
def TaskQueue.get_next_task (q : TaskQueue) : Option Task × TaskQueue :=
  match q.tasks with
  | [] => (none, q)
  | t :: rest => (some t, ⟨rest⟩)

/-- `TaskQueue.is_empty`. -/
def TaskQueue.is_empty (q : TaskQueue) : Bool :=
  q.tasks.length = 0

/-! A client-visible trace of queue usage, for the FIFO claim: an arbitrary
interleaving of `add_task` and `get_next_task` calls. -/

inductive QOp where
  | add (t : Task)
  | deq
deriving DecidableEq

/-- Run a sequence of queue operations; collect every `get_next_task`
result in call order. -/
def runQueueOps : List QOp → TaskQueue → TaskQueue × List (Option Task)
  | [], q => (q, [])
  | QOp.add t :: rest, q => runQueueOps rest (q.add_task t)
  | QOp.deq :: rest, q =>
    let (r, q1) := q.get_next_task
    let (q', outs) := runQueueOps rest q1
    (q', r :: outs)

/-- The tasks enqueued by an operation sequence, in call order. -/
def opsAdds (ops : List QOp) : List Task :=
  ops.filterMap (fun op => match op with | QOp.add t => some t | QOp.deq => none)

/-! ## `AgentOrchestrator._ensure_complete_file_mapping`
(orchestrator.py lines 134-154) -/

/-- Membership of `f` in `set(s.get("files", []) for s in service_list)`
(the union the source accumulates in `all_service_files`). -/
def fileCovered (service_list : List Service) (f : String) : Bool :=
  service_list.any (fun s => s.files.contains f)

/-- The synthetic catch-all service the source appends for unmapped files. -/
def sharedOrUnassignedService (files : List String) : Service :=
  { name := "SharedOrUnassigned"
    description := "Files not mapped to any specific service"
    responsibilities := ["Shared utilities", "Configuration files", "Build scripts"]
    entities := []
    apis := []
    files := files }

/-- `_ensure_complete_file_mapping(service_list, parsed_files)`.
`parsed_keys` is `parsed_files.keys()` (unique, in insertion order); the
source's `set(parsed_files.keys()) - all_service_files` is realised as the
order-preserving filter of the keys — the same set of paths. -/
def ensure_complete_file_mapping (service_list : List Service)
    (parsed_keys : List String) : List Service :=
  let unassigned := parsed_keys.filter (fun f => !(fileCovered service_list f))
  if unassigned.isEmpty then service_list
  else service_list ++ [sharedOrUnassignedService unassigned]

/-! ## `CodeAnalysisAgent._map_files_to_service` (analyzer.py lines 146-178) -/

/-- Rule 1: `any(entity in file_path_lower for entity in service_entities)`
where `service_entities = set(e.lower() for e in service["entities"])`. -/
def entityRule (service : Service) (file_path_lower : String) : Bool :=
  service.entities.any (fun e => pyContains file_path_lower (pyLower e))

/-- Rule 2: `any(part in file_path_lower for part in service_name_parts
if len(part) > 3)` with `service_name_parts = service["name"].lower().split()`. -/
def namePartRule (service : Service) (file_path_lower : String) : Bool :=
  (pySplitWs (pyLower service.name)).any
    (fun part => decide (part.length > 3) && pyContains file_path_lower part)

/-- Rule 3: `any(resp in file_path_lower for resp in service_responsibilities
if len(resp) > 4)` — note the source tests each *whole* lower-cased
responsibility string, not its individual words. -/
def responsibilityRule (service : Service) (file_path_lower : String) : Bool :=
  service.responsibilities.any
    (fun r => decide ((pyLower r).length > 4) && pyContains file_path_lower (pyLower r))

/-- The extension guard of rule 4:
`file_path.endswith(('.cs', '.py', '.java', '.js', '.ts'))`. -/
def sourceLikeExtension (file_path : String) : Bool :=
  pyEndsWith file_path ".cs" || pyEndsWith file_path ".py" ||
  pyEndsWith file_path ".java" || pyEndsWith file_path ".js" ||
  pyEndsWith file_path ".ts"

/-- Rule 4 body: `any(entity in content for entity in service_entities)` over
`content = parsed_files.get(file_path, {}).get('content', '').lower()`. -/
def contentRule (service : Service) (parsed_files : List (String × FileInfo))
    (file_path : String) : Bool :=
  let content := pyLower (match dictGet? parsed_files file_path with
    | some fi => fi.content
    | none => "")
  service.entities.any (fun e => pyContains content (pyLower e))

/-- `_map_files_to_service(service, all_files, static_analysis, parsed_files)`:
the four checks in source order, `continue` on first hit (so each file is
appended at most once). -/
def map_files_to_service (service : Service) (all_files : List String)
    (parsed_files : List (String × FileInfo)) : List String :=
  all_files.filter (fun file_path =>
    let fl := pyLower file_path
    entityRule service fl || namePartRule service fl ||
    responsibilityRule service fl ||
    (sourceLikeExtension file_path && contentRule service parsed_files file_path))

/-! ## `DeveloperAgent._extract_json_from_response` (developer.py 174-195)

The source first tests `if "```json" in content`, but then computes
`start_idx = content.find("``````json")` — six backticks and `json`, a token
that a fenced response does not contain, so `find` returns `-1`; both
negative-index slices below reproduce Python's semantics exactly. -/

def extract_json_from_response (content : String) : String :=
  if pyContains content "```json" then
    let start_idx := pyFind content "``````json"
    let end_idx := pyFindFrom content "```" start_idx
    let json_str :=
      if end_idx = -1 then pySliceFrom content start_idx
      else pySlice content start_idx end_idx
    pyStrip json_str
  else
    let json_start := pyFind content "\x7b"
    let json_end := pyRFind content "\x7d"
    if json_start ≥ 0 && json_end ≥ 0 then
      pyStrip (pySlice content json_start (json_end + 1))
    else ""

/-! ## `DeveloperAgent._clean_json_string` (developer.py 146-172)

The four `re.sub` passes are reproduced as direct scans.  Each of the first
three patterns matches a single character with a look-behind on the previous
*original* character, so a left-to-right scan carrying the original previous
character is exactly `re.sub`'s non-overlapping replacement.  The fourth
pattern `,(\s*[}\]])` deletes a comma before whitespace and a closing
bracket; no new match can start inside the matched region, so dropping the
comma and rescanning is again equivalent. -/

/-- `re.sub(r'(?<!\\)\n(?=.*")', '\\n', s)`.  The replacement text reaches
`re.sub` as the two characters backslash-`n`, and a `re` replacement
template reads that pair as an *escape for a newline* (unlike `\"` below,
which is an unknown escape and keeps its backslash), so the pass rewrites
every matched newline to a newline: it is the identity on every input
(checked against CPython's `re`). -/
def subUnescapedNewlines (l : List Char) : List Char := l

/-- `re.sub(r'(?<!\\)\t', '\\t', s)`: the template `\t` is the escape for a
tab, so this pass likewise rewrites each matched tab to a tab — the
identity. -/
def subUnescapedTabs (l : List Char) : List Char := l

/-- The negative look-ahead class `[,}\]:\s]` of the third substitution. -/
def quoteStopChar (c : Char) : Bool :=
  c = ',' || c = '\x7d' || c = ']' || c = ':' || pyIsSpace c

/-- `re.sub(r'(?<!\\)"(?![,}\]:\s])', '\\"', s)`: a quote not preceded by a
backslash and not followed by a delimiter (or at end of text) gets escaped. -/
def subUnescapedQuotes : List Char → Option Char → List Char
  | [], _ => []
  | c :: t, prev =>
    if c = '"' && prev ≠ some '\\' &&
        (match t with | [] => true | d :: _ => !(quoteStopChar d)) then
      '\\' :: '"' :: subUnescapedQuotes t (some '"')
    else c :: subUnescapedQuotes t (some c)

/-- Is the list whitespace followed by `}` or `]`?  (The tail of the fourth
pattern, `\s*[}\]]`.) -/
def wsThenClose (l : List Char) : Bool :=
  match l.dropWhile pyIsSpace with
  | [] => false
  | c :: _ => c = '\x7d' || c = ']'

/-- `re.sub(r',(\s*[}\]])', r'\1', s)`: remove trailing commas. -/
def subTrailingCommas : List Char → List Char
  | [] => []
  | c :: t =>
    if c = ',' && wsThenClose t then subTrailingCommas t
    else c :: subTrailingCommas t

/-- `_clean_json_string(json_str)`: trim before the first `{` (only when the
`{` is at a positive index) and after the last `}`, then the four
substitution passes in source order. -/
def clean_json_string (json_str : String) : String :=
  let s1 :=
    let start_idx := pyFind json_str "\x7b"
    if start_idx > 0 then pySliceFrom json_str start_idx else json_str
  let s2 :=
    let end_idx := pyRFind s1 "\x7d"
    if end_idx ≥ 0 then pySlice s1 0 (end_idx + 1) else s1
  let s3 : String := ⟨subUnescapedNewlines s2.data⟩
  let s4 : String := ⟨subUnescapedTabs s3.data⟩
  let s5 : String := ⟨subUnescapedQuotes s4.data none⟩
  ⟨subTrailingCommas s5.data⟩

/-! ## `DeveloperAgent._robust_json_extraction` (developer.py 103-144)

Python's `json.loads` is not repository code; it enters the embedding as the
oracle `loads : String → Option LoadedDoc`: `none` when `json.loads` raises,
otherwise the view of the parsed value that the method inspects — whether a
`"files"` key holds a list, and which of its entries are dicts carrying both
`"path"` and `"content"` (`some record`) as opposed to anything else
(`none`).  The returned `Nat` is the instrumentation the spec asks for: the
number of the strategy that produced the returned list. -/

structure LoadedDoc where
  files? : Option (List (Option FileRec))
deriving DecidableEq

/-- Validation shared by methods 1 and 2: `"files" in llm_json and
isinstance(llm_json["files"], list)`, then keep the entries that are dicts
with `path` and `content`, and succeed only when at least one remains. -/
def validFilesFrom (r : Option LoadedDoc) : Option (List FileRec) :=
  match r with
  | none => none
  | some doc =>
    match doc.files? with
    | none => none
    | some entries =>
      let valid := entries.filterMap id
      if valid.isEmpty then none else some valid

/-- `_extract_files_with_regex` (developer.py 197-221).  `re.findall` is
called with the literal pattern
`r'"path"\s*:\s*"([^"]+)"\s*,\s*"content"\s*:\s*"((?:[^"\$$|\\.)*)"'`,
whose second character class (opened at `[^"\$$|\\.)*`) is never closed, so
`re` raises "unterminated character set" before any matching happens; the
function's own `except` handler turns that into `return []`.  Its value is
therefore `[]` on every input. -/
def extract_files_with_regex (_content : String) : List FileRec := []

/-- `_robust_json_extraction(content)` with the strategy number attached.
Method 1 parses `_extract_json_from_response(content)` directly (skipped when
it is empty, per `if json_str:`); method 2 parses the cleaned string (the
source recomputes the same `_extract_json_from_response(content)` first);
method 3 `return`s `_extract_files_with_regex(content)` — its handler never
lets an exception out, so the method always returns and the line-by-line
method 4 and the final `return []` are unreachable. -/
def robust_json_extraction (loads : String → Option LoadedDoc)
    (content : String) : List FileRec × Nat :=
  let json_str := extract_json_from_response content
  match (if json_str = "" then none else validFilesFrom (loads json_str)) with
  | some files => (files, 1)
  | none =>
    match (if json_str = "" then none
           else validFilesFrom (loads (clean_json_string json_str))) with
    | some files => (files, 2)
    | none => (extract_files_with_regex content, 3)

/-! ## Language templates (app/agents/templates)

`BaseTemplate` is an abstract class whose subclasses provide the language
name, the Dockerfile, the main files, the prerequisites and the local-run
text; it is embedded as the structure `Template`, one value per subclass.
Brace characters inside the generated file contents are written `\x7b` /
`\x7d` below. -/

structure Template where
  language_name : String
  file_extensions : List String
  dockerfile_template : String
  prerequisites : String
  local_run_instructions : String → String
  generate_main_files : String → List FileRec
  /-- `BaseTemplate.get_test_instructions`; no subclass overrides it. -/
  test_instructions : String := "# Add language-specific test instructions"

/-- `', '.join(l)`. -/
def joinComma : List String → String
  | [] => ""
  | [x] => x
  | x :: xs => x ++ ", " ++ joinComma xs

/-- `BaseTemplate.generate_readme` (base_template.py 40-127). -/
def Template.generate_readme (t : Template) (service_boundary : Service) : String :=
  let service_name := service_boundary.name
  let service_name_lower := pyLower service_name
  let r0 := "# " ++ service_name ++ "\n\n## Overview\nThis microservice handles the following responsibilities:\n\n"
  let r1 := service_boundary.responsibilities.foldl
    (fun acc responsibility => acc ++ "- " ++ responsibility ++ "\n") r0
  let r2 := r1 ++ "\n## Technology Stack\n- **Language**: " ++ t.language_name
    ++ "\n- **Entities**: " ++ joinComma service_boundary.entities
    ++ "\n- **APIs**: " ++ joinComma service_boundary.apis
    ++ "\n\n## Getting Started\n\n### Prerequisites\n- Docker installed on your system\n- "
    ++ t.prerequisites
    ++ "\n\n### Running the Service\n## Build the Docker image\ndocker build -t "
    ++ service_name_lower
    ++ "\n## Run the container\ndocker run -p 8080:8080 " ++ service_name_lower
    ++ "\n## Or run in development mode\ndocker run -p 8080:8080 -e ENV=development "
    ++ service_name_lower
    ++ "\n\n### Running Locally (without Docker)\n"
    ++ t.local_run_instructions service_name
    ++ "\n\n## API Documentation\nThis service exposes the following endpoints:\n"
  let r3 := service_boundary.apis.foldl (fun acc api => acc ++ "- " ++ api ++ "\n") r2
  let r4 := r3 ++ "\n## Health Check\n- **GET** `/health` - Returns service health status\n\n## Configuration\n- **Port**: 8080 (default)\n- **Environment**: Set ENV=development for development mode\n\n## Testing\n"
  let r5 := r4 ++ t.test_instructions
  r5 ++ "\n\n## Deployment\nThis service is containerized and ready for deployment to:\n- Docker Swarm\n- Kubernetes\n- Cloud platforms (AWS, GCP, Azure)\n\n## Environment Variables\n- `PORT`: Service port (default: 8080)\n- `ENV`: Environment mode (development/production)\n- `LOG_LEVEL`: Logging level (debug/info/warn/error)\n\n## Logs\nCheck application logs:\ndocker logs <container_id>\n\n## Contributing\n1. Fork the repository\n2. Create a feature branch\n3. Make your changes\n4. Add tests\n5. Submit a pull request\n\n## License\nThis project is licensed under the MIT License.\n"

/-- `BaseTemplate.get_gitignore_content` (base_template.py 129-228). -/
def gitignore_content : String :=
  "# Logs\nlogs\n*.log\nnpm-debug.log*\nyarn-debug.log*\nyarn-error.log*\n\n# Runtime data\npids\n*.pid\n*.seed\n*.pid.lock\n\n# Coverage directory\ncoverage/\n*.lcov\n\n# Dependency directories\nnode_modules/\njspm_packages/\n\n# Environment variables\n.env\n.env.test\n.env.production\n.env.local\n\n# IDE\n.vscode/\n.idea/\n*.swp\n*.swo\n*~\n\n# OS\n.DS_Store\n.DS_Store?\n._*\n.Spotlight-V100\n.Trashes\nehthumbs.db\nThumbs.db\n\n# Python\n__pycache__/\n*.py[cod]\n*$py.class\n*.so\n.Python\nbuild/\ndevelop-eggs/\ndist/\ndownloads/\neggs/\n.eggs/\nlib/\nlib64/\nparts/\nsdist/\nvar/\nwheels/\n*.egg-info/\n.installed.cfg\n*.egg\n\n# Java\n*.class\n*.jar\n*.war\n*.ear\n*.zip\n*.tar.gz\n*.rar\ntarget/\n.gradle/\nbuild/\n\n# C#\nbin/\nobj/\n*.exe\n*.dll\n*.pdb\n*.user\n*.suo\n*.userprefs\npackages/\n\n# Go\n*.exe\n*.exe~\n*.dll\n*.so\n*.dylib\n*.test\n*.out\nvendor/\n"

/-- `BaseTemplate.get_docker_compose_content` (base_template.py 230-253). -/
def docker_compose_content (service_name : String) : String :=
  let l := pyLower service_name
  "version: '3.8'\n\nservices:\n  " ++ l
  ++ ":\n    build: .\n    ports:\n      - \"8080:8080\"\n    environment:\n      - ENV=development\n      - LOG_LEVEL=debug\n      - PORT=8080\n    volumes:\n      - .:/app\n    restart: unless-stopped\n    networks:\n      - "
  ++ l ++ "_network\n\nnetworks:\n  " ++ l ++ "_network:\n    driver: bridge\n"

/-- Core of `replaceSub`: when the pattern matches at the current position,
emit the replacement and skip the pattern's remaining characters via the
`skip` counter (structural recursion on the text). -/
def replaceSubAux (pat rep : List Char) : List Char → Nat → List Char
  | [], _ => []
  | _ :: t, skip + 1 => replaceSubAux pat rep t skip
  | c :: t, 0 =>
    if pat.isPrefixOf (c :: t) && !pat.isEmpty then
      rep ++ replaceSubAux pat rep t (pat.length - 1)
    else c :: replaceSubAux pat rep t 0

/-- Non-overlapping left-to-right replacement of a non-empty pattern
(Python `str.replace` restricted to what `.format` needs here). -/
def replaceSub (pat rep : List Char) (l : List Char) : List Char :=
  replaceSubAux pat rep l 0

/-- `str.format(service_name=...)` on a Dockerfile template: replace every
`\x7bservice_name\x7d` placeholder (the templates contain no other brace). -/
def formatServiceName (template service_name : String) : String :=
  ⟨replaceSub "\x7bservice_name\x7d".data service_name.data template.data⟩

/-- `BaseTemplate.create_service_files` (base_template.py 255-289): README,
the language's main files, Dockerfile, .gitignore, docker-compose.yml, in
that order. -/
def Template.create_service_files (t : Template) (service_boundary : Service) :
    List FileRec :=
  let service_name := service_boundary.name
  [⟨service_name ++ "/README.md", t.generate_readme service_boundary⟩]
  ++ t.generate_main_files service_name
  ++ [⟨service_name ++ "/Dockerfile", formatServiceName t.dockerfile_template service_name⟩,
      ⟨service_name ++ "/.gitignore", gitignore_content⟩,
      ⟨service_name ++ "/docker-compose.yml", docker_compose_content service_name⟩]

/-- `GenericTemplate` (template_factory.py 9-41). -/
def generic_template : Template where
  language_name := "Generic"
  file_extensions := []
  dockerfile_template := "FROM alpine:latest\nWORKDIR /app\nCOPY . .\nEXPOSE 8080\nCMD [\"echo\", \"Generic service template\"]"
  prerequisites := "Appropriate runtime for the language"
  local_run_instructions := fun service_name =>
    "```\n# Follow language-specific instructions to run " ++ service_name ++ "\n```"
  generate_main_files := fun service_name =>
    [⟨service_name ++ "/main.txt",
      "Main application file for " ++ service_name ++ "\n\nThis is a placeholder file for the main application logic."⟩,
     ⟨service_name ++ "/config.txt",
      "Configuration file for " ++ service_name ++ "\n\nAdd your configuration settings here."⟩]

/-- `PythonTemplate` (python_template.py). -/
def python_template : Template where
  language_name := "Python"
  file_extensions := [".py"]
  dockerfile_template := "FROM python:3.11-slim\nWORKDIR /app\nCOPY requirements.txt .\nRUN pip install -r requirements.txt\nCOPY . .\nEXPOSE 8000\nCMD [\"python\", \"main.py\"]"
  prerequisites := "Python 3.11+ and pip"
  local_run_instructions := fun _ =>
    "```\n# Install dependencies\npip install -r requirements.txt\n\n# Run the application\npython main.py\n```"
  generate_main_files := fun service_name =>
    [⟨service_name ++ "/main.py",
      "from flask import Flask, jsonify\nimport os\n\napp = Flask(__name__)\n\n@app.route('/health')\ndef health():\n    return jsonify(\x7b\"status\": \"healthy\", \"service\": \"" ++ service_name ++ "\"\x7d)\n\n@app.route('/')\ndef index():\n    return jsonify(\x7b\"message\": \"Welcome to " ++ service_name ++ "\"\x7d)\n\nif __name__ == '__main__':\n    port = int(os.environ.get('PORT', 8000))\n    app.run(host='0.0.0.0', port=port, debug=True)"⟩,
     ⟨service_name ++ "/requirements.txt",
      "Flask==2.3.3\ngunicorn==21.2.0\nrequests==2.31.0"⟩,
     ⟨service_name ++ "/config.py",
      "import os\n\nclass Config:\n    DEBUG = os.environ.get('DEBUG', 'False').lower() == 'true'\n    PORT = int(os.environ.get('PORT', 8000))\n    HOST = os.environ.get('HOST', '0.0.0.0')\n    SERVICE_NAME = \"" ++ service_name ++ "\"\n"⟩,
     ⟨service_name ++ "/wsgi.py",
      "from main import app\n\nif __name__ == \"__main__\":\n    app.run()"⟩]

/-- `CSharpTemplate` (csharp_template.py). -/
def csharp_template : Template where
  language_name := "C#"
  file_extensions := [".cs", ".csproj", ".sln"]
  dockerfile_template := "FROM mcr.microsoft.com/dotnet/aspnet:8.0\nWORKDIR /app\nCOPY . .\nEXPOSE 80\nENTRYPOINT [\"dotnet\", \"\x7bservice_name\x7d.dll\"]"
  prerequisites := ".NET 8.0 SDK or later"
  local_run_instructions := fun _ =>
    "```\n# Restore dependencies\ndotnet restore\n\n# Run the application\ndotnet run\n```"
  generate_main_files := fun service_name =>
    [⟨service_name ++ "/Program.cs",
      "using Microsoft.AspNetCore;\n\nnamespace " ++ service_name ++ "\n\x7b\n    public class Program\n    \x7b\n        public static void Main(string[] args)\n        \x7b\n            CreateWebHostBuilder(args).Build().Run();\n        \x7d\n\n        public static IWebHostBuilder CreateWebHostBuilder(string[] args) =>\n            WebHost.CreateDefaultBuilder(args)\n                .UseStartup<Startup>();\n    \x7d\n\x7d"⟩,
     ⟨service_name ++ "/Startup.cs",
      "using Microsoft.AspNetCore.Builder;\nusing Microsoft.AspNetCore.Hosting;\nusing Microsoft.Extensions.DependencyInjection;\nusing Microsoft.Extensions.Hosting;\n\nnamespace " ++ service_name ++ "\n\x7b\n    public class Startup\n    \x7b\n        public void ConfigureServices(IServiceCollection services)\n        \x7b\n            services.AddControllers();\n            services.AddHealthChecks();\n        \x7d\n\n        public void Configure(IApplicationBuilder app, IWebHostEnvironment env)\n        \x7b\n            if (env.IsDevelopment())\n            \x7b\n                app.UseDeveloperExceptionPage();\n            \x7d\n\n            app.UseRouting();\n            app.UseEndpoints(endpoints =>\n            \x7b\n                endpoints.MapControllers();\n                endpoints.MapHealthChecks(\"/health\");\n            \x7d);\n        \x7d\n    \x7d\n\x7d"⟩,
     ⟨service_name ++ "/" ++ service_name ++ ".csproj",
      "<Project Sdk=\"Microsoft.NET.Sdk.Web\">\n  <PropertyGroup>\n    <TargetFramework>net8.0</TargetFramework>\n    <AssemblyName>" ++ service_name ++ "</AssemblyName>\n  </PropertyGroup>\n  <ItemGroup>\n    <PackageReference Include=\"Microsoft.AspNetCore.App\" />\n  </ItemGroup>\n</Project>"⟩,
     ⟨service_name ++ "/Controllers/HealthController.cs",
      "using Microsoft.AspNetCore.Mvc;\n\nnamespace " ++ service_name ++ ".Controllers\n\x7b\n    [ApiController]\n    [Route(\"api/[controller]\")]\n    public class HealthController : ControllerBase\n    \x7b\n        [HttpGet]\n        public IActionResult Get()\n        \x7b\n            return Ok(new \x7b status = \"healthy\", service = \"" ++ service_name ++ "\" \x7d);\n        \x7d\n    \x7d\n\x7d"⟩,
     ⟨service_name ++ "/appsettings.json",
      "\x7b\n  \"Logging\": \x7b\n    \"LogLevel\": \x7b\n      \"Default\": \"Information\",\n      \"Microsoft.AspNetCore\": \"Warning\"\n    \x7d\n  \x7d,\n  \"AllowedHosts\": \"*\"\n\x7d"⟩]

/-- `JavaTemplate` (java_template.py). -/
def java_template : Template where
  language_name := "Java"
  file_extensions := [".java", ".gradle", ".xml"]
  dockerfile_template := "FROM openjdk:17-jre-slim\nWORKDIR /app\nCOPY target/\x7bservice_name\x7d.jar app.jar\nEXPOSE 8080\nENTRYPOINT [\"java\", \"-jar\", \"app.jar\"]"
  prerequisites := "Java 17+ and Maven/Gradle"
  local_run_instructions := fun service_name =>
    "```\n# Build with Maven\nmvn clean install\n\n# Run the application\njava -jar target/" ++ pyLower service_name ++ ".jar\n```"
  generate_main_files := fun service_name =>
    let l := pyLower service_name
    [⟨service_name ++ "/src/main/java/com/" ++ l ++ "/Application.java",
      "package com." ++ l ++ ";\n\nimport org.springframework.boot.SpringApplication;\nimport org.springframework.boot.autoconfigure.SpringBootApplication;\n\n@SpringBootApplication\npublic class Application \x7b\n    public static void main(String[] args) \x7b\n        SpringApplication.run(Application.class, args);\n    \x7d\n\x7d"⟩,
     ⟨service_name ++ "/src/main/java/com/" ++ l ++ "/controller/HealthController.java",
      "package com." ++ l ++ ".controller;\n\nimport org.springframework.web.bind.annotation.GetMapping;\nimport org.springframework.web.bind.annotation.RequestMapping;\nimport org.springframework.web.bind.annotation.RestController;\nimport java.util.Map;\n\n@RestController\n@RequestMapping(\"/api/health\")\npublic class HealthController \x7b\n    \n    @GetMapping\n    public Map<String, String> health() \x7b\n        return Map.of(\"status\", \"healthy\", \"service\", \"" ++ service_name ++ "\");\n    \x7d\n\x7d"⟩,
     ⟨service_name ++ "/pom.xml",
      "<?xml version=\"1.0\" encoding=\"UTF-8\"?>\n<project xmlns=\"http://maven.apache.org/POM/4.0.0\">\n    <modelVersion>4.0.0</modelVersion>\n    <groupId>com." ++ l ++ "</groupId>\n    <artifactId>" ++ l ++ "</artifactId>\n    <version>1.0.0</version>\n    <packaging>jar</packaging>\n    \n    <parent>\n        <groupId>org.springframework.boot</groupId>\n        <artifactId>spring-boot-starter-parent</artifactId>\n        <version>3.2.0</version>\n    </parent>\n    \n    <dependencies>\n        <dependency>\n            <groupId>org.springframework.boot</groupId>\n            <artifactId>spring-boot-starter-web</artifactId>\n        </dependency>\n        <dependency>\n            <groupId>org.springframework.boot</groupId>\n            <artifactId>spring-boot-starter-actuator</artifactId>\n        </dependency>\n    </dependencies>\n</project>"⟩,
     ⟨service_name ++ "/src/main/resources/application.yml",
      "server:\n  port: 8080\nspring:\n  application:\n    name: " ++ l ++ "\nlogging:\n  level:\n    root: INFO\nmanagement:\n  endpoints:\n    web:\n      exposure:\n        include: health,info"⟩]

/-- `JavaScriptTemplate` (javascript_template.py). -/
def javascript_template : Template where
  language_name := "JavaScript"
  file_extensions := [".js", ".ts", ".json"]
  dockerfile_template := "FROM node:18-alpine\nWORKDIR /app\nCOPY package*.json ./\nRUN npm install\nCOPY . .\nEXPOSE 3000\nCMD [\"npm\", \"start\"]"
  prerequisites := "Node.js 18+ and npm"
  local_run_instructions := fun _ =>
    "```\n# Install dependencies\nnpm install\n\n# Run the application\nnpm start\n\n# Or for development\nnpm run dev\n```"
  generate_main_files := fun service_name =>
    let l := pyLower service_name
    [⟨service_name ++ "/index.js",
      "const express = require('express');\nconst app = express();\nconst PORT = process.env.PORT || 3000;\n\napp.use(express.json());\n\napp.get('/health', (req, res) => \x7b\n    res.json(\x7b status: 'healthy', service: '" ++ service_name ++ "' \x7d);\n\x7d);\n\napp.get('/', (req, res) => \x7b\n    res.json(\x7b message: 'Welcome to " ++ service_name ++ "' \x7d);\n\x7d);\n\napp.listen(PORT, () => \x7b\n    console.log(`" ++ service_name ++ " running on port $\x7bPORT\x7d`);\n\x7d);\n\nmodule.exports = app;"⟩,
     ⟨service_name ++ "/package.json",
      "\x7b\n  \"name\": \"" ++ l ++ "\",\n  \"version\": \"1.0.0\",\n  \"description\": \"" ++ service_name ++ " microservice\",\n  \"main\": \"index.js\",\n  \"scripts\": \x7b\n    \"start\": \"node index.js\",\n    \"dev\": \"nodemon index.js\",\n    \"test\": \"jest\"\n  \x7d,\n  \"dependencies\": \x7b\n    \"express\": \"^4.18.2\"\n  \x7d,\n  \"devDependencies\": \x7b\n    \"nodemon\": \"^3.0.1\",\n    \"jest\": \"^29.0.0\"\n  \x7d,\n  \"keywords\": [\"microservice\", \"express\", \"nodejs\"],\n  \"author\": \"\",\n  \"license\": \"MIT\"\n\x7d"⟩,
     ⟨service_name ++ "/.env.example",
      "PORT=3000\nNODE_ENV=development\nSERVICE_NAME=" ++ service_name⟩]

/-- `GoTemplate` (go_template.py). -/
def go_template : Template where
  language_name := "Go"
  file_extensions := [".go", ".mod"]
  dockerfile_template := "FROM golang:1.21-alpine AS builder\nWORKDIR /app\nCOPY go.mod go.sum ./\nRUN go mod download\nCOPY . .\nRUN go build -o main .\n\nFROM alpine:latest\nWORKDIR /root/\nCOPY --from=builder /app/main .\nEXPOSE 8080\nCMD [\"./main\"]"
  prerequisites := "Go 1.21+ compiler"
  local_run_instructions := fun service_name =>
    let l := pyLower service_name
    "```\n# Download dependencies\ngo mod tidy\n\n# Run the application\ngo run main.go\n\n# Or build and run\ngo build -o " ++ l ++ "\n./" ++ l ++ "\n```"
  generate_main_files := fun service_name =>
    let l := pyLower service_name
    [⟨service_name ++ "/main.go",
      "package main\n\nimport (\n    \"encoding/json\"\n    \"fmt\"\n    \"log\"\n    \"net/http\"\n    \"os\"\n)\n\ntype Response struct \x7b\n    Message string `json:\"message\"`\n    Service string `json:\"service\"`\n    Status  string `json:\"status,omitempty\"`\n\x7d\n\nfunc healthHandler(w http.ResponseWriter, r *http.Request) \x7b\n    w.Header().Set(\"Content-Type\", \"application/json\")\n    json.NewEncoder(w).Encode(Response\x7b\n        Status:  \"healthy\",\n        Service: \"" ++ service_name ++ "\",\n    \x7d)\n\x7d\n\nfunc indexHandler(w http.ResponseWriter, r *http.Request) \x7b\n    w.Header().Set(\"Content-Type\", \"application/json\")\n    json.NewEncoder(w).Encode(Response\x7b\n        Message: \"Welcome to " ++ service_name ++ "\",\n        Service: \"" ++ service_name ++ "\",\n    \x7d)\n\x7d\n\nfunc main() \x7b\n    port := os.Getenv(\"PORT\")\n    if port == \"\" \x7b\n        port = \"8080\"\n    \x7d\n\n    http.HandleFunc(\"/health\", healthHandler)\n    http.HandleFunc(\"/\", indexHandler)\n    \n    fmt.Printf(\"" ++ service_name ++ " running on port %s\\n\", port)\n    log.Fatal(http.ListenAndServe(\":\"+port, nil))\n\x7d"⟩,
     ⟨service_name ++ "/go.mod",
      "module " ++ l ++ "\n\ngo 1.21\n\nrequire ()"⟩,
     ⟨service_name ++ "/go.sum",
      "# Go modules checksum file"⟩]

/-! ## `TemplateFactory` (template_factory.py 43-88) -/

/-- The `_templates` registry, in constructor order. -/
def templateRegistry : List (String × Template) :=
  [("C#", csharp_template), ("Java", java_template), ("Python", python_template),
   ("JavaScript", javascript_template), ("Go", go_template), ("Generic", generic_template)]

/-- `TemplateFactory.get_template`:
`self._templates.get(language, self._templates["Generic"])`. -/
def get_template (language : String) : Template :=
  (dictGet? templateRegistry language).getD generic_template

/-- `ext = file_path.split('.')[-1].lower() if '.' in file_path else ''`. -/
def extOf (file_path : String) : String :=
  if pyContains file_path "." then
    pyLower (((pySplitOn file_path '.').getLast?).getD "")
  else ""

/-- One `language_counts` update of `detect_language`. -/
def bumpLanguage (counts : List (String × Nat)) (ext : String) : List (String × Nat) :=
  let bump := fun (k : String) => dictInsert counts k (((dictGet? counts k).getD 0) + 1)
  if ext = "cs" || ext = "csproj" then bump "C#"
  else if ext = "java" || ext = "gradle" then bump "Java"
  else if ext = "py" then bump "Python"
  else if ext = "js" || ext = "ts" then bump "JavaScript"
  else if ext = "go" then bump "Go"
  else counts

/-- `TemplateFactory.detect_language` (template_factory.py 60-78).
`max(language_counts, key=language_counts.get)` returns the first key (in
dict insertion order) whose count is maximal, which the fold reproduces. -/
def detect_language (original_code : List (String × FileInfo)) : String :=
  let counts := original_code.foldl (fun acc kv => bumpLanguage acc (extOf kv.1)) []
  match counts with
  | [] => "Generic"
  | kv0 :: rest => (rest.foldl (fun best kv => if kv.2 > best.2 then kv else best) kv0).1

/-- `TemplateFactory.create_service_files` (template_factory.py 80-84). -/
def factory_create_service_files (service_boundary : Service)
    (original_code : List (String × FileInfo)) : List FileRec :=
  (get_template (detect_language original_code)).create_service_files service_boundary

/-! ## `DeveloperAgent.refactor_code` (developer.py 34-101)

`MAX_FILES_PER_BATCH = 6`.  The external `llm_service.generate_completion`
enters as the oracle `llm : Nat → Option String`, giving per batch index the
`content` of the response (`none` when the call raised — the batch's
`except` clause logs and contributes nothing). -/

/-- `range(0, len(all_files), MAX_FILES_PER_BATCH)` slicing: the batches
`all_files[i:i+6]` (`MAX_FILES_PER_BATCH = 6`), written with structural
recursion so the kernel can evaluate it. -/
def chunks6 {α : Type} : List α → List (List α)
  | [] => []
  | [a] => [[a]]
  | [a, b] => [[a, b]]
  | [a, b, c] => [[a, b, c]]
  | [a, b, c, d] => [[a, b, c, d]]
  | [a, b, c, d, e] => [[a, b, c, d, e]]
  | a :: b :: c :: d :: e :: f :: rest => [a, b, c, d, e, f] :: chunks6 rest

/-- The batch loop of `refactor_code`: extract each batch's files and
concatenate (`microservice_files.extend(parsed_files)`). -/
def collectBatchFiles (loads : String → Option LoadedDoc) (llm : Nat → Option String) :
    List (List (String × FileInfo)) → Nat → List FileRec
  | [], _ => []
  | _batch :: rest, i =>
    let got := match llm i with
      | none => []
      | some content => (robust_json_extraction loads content).1
    got ++ collectBatchFiles loads llm rest (i + 1)

/-- `unique_files = {}` / `unique_files[f["path"]] = f` / `list(values())`:
path-keyed dedup, last write wins, first-insertion order. -/
def dedupByPath (files : List FileRec) : List FileRec :=
  (files.foldl (fun acc f => dictInsert acc f.path f) []).map Prod.snd

structure RefactoredService where
  service_name : String
  files : List FileRec
deriving DecidableEq

/-- `refactor_code(service_boundary, original_code)`. -/
def refactor_code (loads : String → Option LoadedDoc) (llm : Nat → Option String)
    (service_boundary : Service) (original_code : List (String × FileInfo)) :
    RefactoredService :=
  if original_code.isEmpty then
    { service_name := service_boundary.name
      files := factory_create_service_files service_boundary [] }
  else
    let microservice_files := collectBatchFiles loads llm (chunks6 original_code) 0
    if microservice_files.isEmpty then
      { service_name := service_boundary.name
        files := factory_create_service_files service_boundary original_code }
    else
      { service_name := service_boundary.name
        files := dedupByPath microservice_files }

/-! ## The orchestrator run loop (`AgentOrchestrator.process_codebase`,
orchestrator.py 44-93)

Result dictionaries are embedded as `RDict`, a record of the keys the loop
and the audit inspect: `parsed_files` (analyzer results), the boundary keys
(`service_boundaries` / `potential_services`, either at top level or nested
under `analysis_results`), developer output keys (`service_name`, `files`),
and `error` (the failure record `{"error": str(e)}` is an `RDict` whose only
set key is `error`).  Collaborators are external: registration, `getattr`
lookup and the operation call itself enter as the oracle `OrchestratorEnv`. -/

structure BoundaryKeys where
  service_boundaries : Option (List Service) := none
  potential_services : Option (List Service) := none
deriving DecidableEq

structure RDict where
  parsed_files : Option (List (String × FileInfo)) := none
  /-- The nested `result["analysis_results"]` dict, projected to the two keys
  `_generate_follow_up_tasks` reads from it; `none` when the key is absent. -/
  analysis_results : Option BoundaryKeys := none
  /-- The result's own top-level boundary keys (used when `analysis_results`
  is absent, per `result.get('analysis_results', result)`). -/
  top_keys : BoundaryKeys := {}
  service_name : Option String := none
  files : Option (List FileRec) := none
  error : Option String := none
deriving DecidableEq

/-- The failure record `{"error": str(e)}`. -/
def errorDict (msg : String) : RDict := { error := some msg }

/-- `analysis_results = result.get('analysis_results', result)`. -/
def boundarySourceOf (r : RDict) : BoundaryKeys :=
  match r.analysis_results with
  | some bk => bk
  | none => r.top_keys

/-- `analysis_results.get('service_boundaries') or
analysis_results.get('potential_services', [])` — Python `or`, so an *empty*
`service_boundaries` list also falls through to `potential_services`. -/
def service_list_of (r : RDict) : List Service :=
  let bk := boundarySourceOf r
  match bk.service_boundaries with
  | some l => if l.isEmpty then (bk.potential_services.getD []) else l
  | none => bk.potential_services.getD []

/-- `{f: parsed_files[f] for f in service.get("files", []) if f in
parsed_files}`. -/
def buildCodeDict (files : List String) (parsed_files : List (String × FileInfo)) :
    List (String × FileInfo) :=
  files.foldl (fun acc f =>
    match dictGet? parsed_files f with
    | some v => dictInsert acc f v
    | none => acc) []

/-- One iteration of the per-service loop of `_generate_follow_up_tasks`
(orchestrator.py 112-130): build the service's file dict, skip the service
when it is empty, otherwise append one developer task. -/
def devTaskStep (parsed_files : List (String × FileInfo)) (acc : List Task × Nat)
    (service : Service) : List Task × Nat :=
  let files_for_service := buildCodeDict service.files parsed_files
  if files_for_service.isEmpty then acc
  else (acc.1 ++
    [⟨"developer", "refactor_code",
      TaskParams.developerParams service files_for_service, acc.2⟩],
    acc.2 + 1)

/-- `_generate_follow_up_tasks(task, result, parsed_files)` (orchestrator.py
95-132), threading the allocation counter for the `Task` objects it
constructs. -/
def generate_follow_up_tasks (task : Task) (result : RDict)
    (parsed_files : List (String × FileInfo)) (ctr : Nat) : List Task × Nat :=
  if task.agent = "analyzer" && task.action = "analyze_repository" then
    ([⟨"architect", "identify_service_boundaries", TaskParams.architectParams, ctr⟩],
     ctr + 1)
  else if task.agent = "architect" && task.action = "identify_service_boundaries" then
    let service_list :=
      ensure_complete_file_mapping (service_list_of result) (parsed_files.map Prod.fst)
    service_list.foldl (devTaskStep parsed_files) ([], ctr)
  else ([], ctr)

/-- Outcome of `await action_fn(**current_task.params)`: a result dict, or a
raised exception with its message. -/
inductive ExecResult where
  | ok (r : RDict)
  | exn (msg : String)

/-- The orchestrator's collaborators, as the loop sees them:
`registered a` is `a in self.agents`, `has_action a op` is `getattr(agent,
op, None) is not None`, `exec` is the operation call. -/
structure OrchestratorEnv where
  registered : String → Bool
  has_action : String → String → Bool
  exec : String → String → TaskParams → ExecResult

/-- The `while not self.task_queue.is_empty()` loop, with fuel (the loop
need not terminate for an arbitrary oracle; `none` = fuel exhausted with a
non-empty queue).  State: pending queue, `results`, `parsed_files`, and the
allocation counter for fresh task ids. -/
def process_loop (env : OrchestratorEnv) :
    Nat → List Task → List (String × RDict) → List (String × FileInfo) → Nat →
    Option (List (String × RDict) × List (String × FileInfo))
  | 0, queue, results, parsed, _ =>
    if queue.isEmpty then some (results, parsed) else none
  | _ + 1, [], results, parsed, _ => some (results, parsed)
  | fuel + 1, t :: rest, results, parsed, ctr =>
    if !(env.registered t.agent) then
      -- agent not found: log and `continue`, nothing recorded
      process_loop env fuel rest results parsed ctr
    else if !(env.has_action t.agent t.action) then
      -- action not found: log and `continue`, nothing recorded
      process_loop env fuel rest results parsed ctr
    else match env.exec t.agent t.action t.params with
      | ExecResult.exn msg =>
        -- `results[task.id] = {"error": str(e)}; continue` (no follow-ups)
        process_loop env fuel rest (dictInsert results t.tid (errorDict msg)) parsed ctr
      | ExecResult.ok r =>
        let results' := dictInsert results t.tid r
        let parsed' :=
          if t.agent = "analyzer" && r.parsed_files.isSome then
            r.parsed_files.getD []
          else parsed
        let ft := generate_follow_up_tasks t r parsed' ctr
        process_loop env fuel (rest ++ ft.1) results' parsed' ft.2

/-! ## `AgentOrchestrator._validate_complete_coverage` (orchestrator.py
156-208)

The source function only writes log lines and returns `None`; the record
below collects exactly the values it computes and logs (its local variables
`developer_outputs`, `total_generated_files`, `all_generated_files`,
`failed_services`, `successful_services`). -/

structure CoverageSummary where
  developer_output_count : Nat
  total_files : Nat
  total_generated_files : Nat
  unique_generated_paths : List String
  failed_services : List String
  successful_services : List String
deriving DecidableEq

/-- `len(files) == 1 and files[0].get("path") == "README.txt"` (the
counting-loop guard). -/
def isReadmeOnly (files : List FileRec) : Bool :=
  match files with
  | [f] => f.path = "README.txt"
  | _ => false

/-- The failed-service test of the classification loop. -/
def isFailedOutput (files : List FileRec) : Bool :=
  files.isEmpty ||
  (match files with
   | [f] => (f.path = "README.txt" || f.path = "README.md") &&
            pyContains f.content "Error generating code"
   | _ => false)

/-- `all_generated_files.add(path)` (set insertion). -/
def setAdd (l : List String) (x : String) : List String :=
  if l.contains x then l else l ++ [x]

/-- One iteration of the counting loop (orchestrator.py 171-182). -/
def countStep (acc : List String × Nat) (v : RDict) : List String × Nat :=
  let files := v.files.getD []
  if files.isEmpty || isReadmeOnly files then acc
  else files.foldl (fun (acc2 : List String × Nat) f =>
    (setAdd acc2.1 f.path, acc2.2 + 1)) acc

/-- One iteration of the failed/successful classification loop
(orchestrator.py 192-200). -/
def classifyStep (acc : List String × List String) (v : RDict) :
    List String × List String :=
  let name := v.service_name.getD "Unknown"
  let files := v.files.getD []
  if isFailedOutput files then (acc.1 ++ [name], acc.2)
  else (acc.1, acc.2 ++ [name])

/-- The developer outputs the audit scans: values under keys starting with
`developer_refactor_code` that are dicts with a `files` key. -/
def developerOutputs (results : List (String × RDict)) : List RDict :=
  results.filterMap (fun kv =>
    if pyStartsWith kv.1 "developer_refactor_code" && kv.2.files.isSome
    then some kv.2 else none)

def validate_complete_coverage (results : List (String × RDict))
    (parsed_files : List (String × FileInfo)) : CoverageSummary :=
  let developer_outputs := developerOutputs results
  let counted := developer_outputs.foldl countStep ([], 0)
  let classified := developer_outputs.foldl classifyStep ([], [])
  { developer_output_count := developer_outputs.length
    total_files := parsed_files.length
    total_generated_files := counted.2
    unique_generated_paths := counted.1
    failed_services := classified.1
    successful_services := classified.2 }

/-- `process_codebase(repo_url)`: seed the queue with the analyzer task,
drain the loop, run `_validate_complete_coverage` (which only logs — its
summary is dropped on the floor) and return `results`. -/
def process_codebase (env : OrchestratorEnv) (repo_url : String) (fuel : Nat) :
    Option (List (String × RDict)) :=
  let initial_task : Task :=
    ⟨"analyzer", "analyze_repository", TaskParams.analyzeRepo repo_url, 0⟩
  match process_loop env fuel [initial_task] [] [] 1 with
  | none => none
  | some (results, parsed) =>
    let _summary := validate_complete_coverage results parsed
    some results

/-! ## Specification-side definition for the file-mapping claim

The claim about `_map_files_to_service` words its third rule as "the path
contains some individual responsibility *word* of length greater than 4";
the definition below follows those words (split each responsibility on
whitespace, test each word), to be compared against the source's
`responsibilityRule`, which tests each whole responsibility string. -/

def claimResponsibilityWordRule (service : Service) (file_path_lower : String) : Bool :=
  service.responsibilities.any (fun r =>
    (pySplitWs (pyLower r)).any
      (fun w => decide (w.length > 4) && pyContains file_path_lower w))

/-! ## Concrete instances used by the theorems below -/

def fiXml : FileInfo := ⟨"", ".xml", 0⟩

def fiPy : FileInfo := ⟨"print(1)", ".py", 8⟩

/-- A boundary whose listed file is not among the discovered files. -/
def svcGhost : Service := ⟨"GhostService", "", [], [], [], ["ghost.py"]⟩

/-- A boundary with no entities, responsibilities or files. -/
def svcPlain : Service := ⟨"SvcA", "", [], [], [], []⟩

/-- A boundary whose only responsibility is the two-word phrase
"order handling". -/
def svcResp : Service := ⟨"Svc", "", ["order handling"], [], [], []⟩

/-- A boundary owning the discovered file `a.py`. -/
def svcOrder : Service := ⟨"OrderService", "", [], [], [], ["a.py"]⟩

/-- A `json.loads` stand-in that rejects everything (every input of the run
it is used in is unparsable). -/
def noLoads : String → Option LoadedDoc := fun _ => none

/-- A text-generation oracle that answers plain prose for every batch. -/
def garbageLlm : Nat → Option String := fun _ => some "no json here"

/-- A well-formed developer-schema JSON object (braces written `\x7b`/`\x7d`). -/
def goodJson : String :=
  "\x7b\"files\": [\x7b\"path\": \"a.py\", \"content\": \"x\"\x7d]\x7d"

/-- `goodJson` inside a fenced code block labeled `json`. -/
def fencedContent : String := "```json\n" ++ goodJson ++ "\n```"

/-- `goodJson` preceded by prose, no fence. -/
def plainContent : String := "Here is the result: " ++ goodJson

/-- A `json.loads` stand-in that parses exactly the intended payload
`goodJson` (to the files view the extractor reads) and raises on any other
input — in particular on the stray text the buggy fence handling slices out. -/
def loadsC2 : String → Option LoadedDoc := fun s =>
  if s = goodJson then some ⟨some [some ⟨"a.py", "x"⟩]⟩ else none

/-- Analyzer result of the three-stage scenario run. -/
def analyzerOut : RDict := { parsed_files := some [("a.py", fiPy)] }

/-- Architect result of the scenario run (boundary list at top level). -/
def architectOut : RDict := { top_keys := { service_boundaries := some [svcOrder] } }

/-- Developer result of the scenario run. -/
def devOutR : RDict :=
  { service_name := some "OrderService", files := some [⟨"OrderService/x.py", "code"⟩] }

/-- Scenario environment: all three collaborators registered, every
operation present, each answering its stage's result. -/
def env1 : OrchestratorEnv where
  registered := fun a => a = "analyzer" || a = "architect" || a = "developer"
  has_action := fun _ _ => true
  exec := fun a _ _ =>
    if a = "analyzer" then ExecResult.ok analyzerOut
    else if a = "architect" then ExecResult.ok architectOut
    else ExecResult.ok devOutR

/-- The outcome mapping the scenario run produces. -/
def expectedRun1 : List (String × RDict) :=
  [("analyzer_analyze_repository_0", analyzerOut),
   ("architect_identify_service_boundaries_1", architectOut),
   ("developer_refactor_code_2", devOutR)]

/-- Environment with no registered collaborator at all. -/
def envNone : OrchestratorEnv :=
  ⟨fun _ => false, fun _ _ => true, fun _ _ _ => ExecResult.exn "unused"⟩

/-- Environment where collaborators exist but expose no operations. -/
def envNoAction : OrchestratorEnv :=
  ⟨fun _ => true, fun _ _ => false, fun _ _ _ => ExecResult.exn "unused"⟩

/-- Environment whose every operation call raises `"boom"`. -/
def envExn : OrchestratorEnv :=
  ⟨fun _ => true, fun _ _ => true, fun _ _ _ => ExecResult.exn "boom"⟩

/-- The seed task of a run on `http://r`. -/
def taskSeed : Task := ⟨"analyzer", "analyze_repository", TaskParams.analyzeRepo "http://r", 0⟩

/-! ## Helper lemmas -/

theorem dictGet?_insert_self {α : Type} (d : List (String × α)) (k : String) (v : α) :
    dictGet? (dictInsert d k v) k = some v := by
  induction d with
  | nil => simp [dictInsert, dictGet?, List.lookup]
  | cons kv t ih =>
    by_cases h : kv.1 = k
    · simp [dictInsert, h, dictGet?, List.lookup]
    · have hb : (k == kv.1) = false := beq_eq_false_iff_ne.mpr (Ne.symm h)
      simp only [dictInsert, if_neg h, dictGet?, List.lookup, hb]
      simpa [dictGet?] using ih

theorem dictGet?_insert_ne {α : Type} (d : List (String × α)) (k k' : String) (v : α)
    (h : k' ≠ k) : dictGet? (dictInsert d k v) k' = dictGet? d k' := by
  have hb : (k' == k) = false := beq_eq_false_iff_ne.mpr h
  induction d with
  | nil => simp [dictInsert, dictGet?, List.lookup, hb]
  | cons kv t ih =>
    by_cases hk : kv.1 = k
    · subst hk
      simp [dictInsert, dictGet?, List.lookup, hb]
    · by_cases hk' : k' = kv.1
      · simp [dictInsert, hk, dictGet?, List.lookup, hk', beq_self_eq_true]
      · have hb' : (k' == kv.1) = false := beq_eq_false_iff_ne.mpr hk'
        simp only [dictInsert, if_neg hk, dictGet?, List.lookup, hb']
        simpa [dictGet?] using ih

theorem fileCovered_append_singleton (B : List Service) (s : Service) (f : String) :
    fileCovered (B ++ [s]) f = (fileCovered B f || s.files.contains f) := by
  simp [fileCovered, List.any_append]

theorem runQueueOps_fifo (ops : List QOp) : ∀ l : List Task,
    ((runQueueOps ops ⟨l⟩).2.filterMap id) ++ (runQueueOps ops ⟨l⟩).1.tasks
      = l ++ opsAdds ops := by
  induction ops with
  | nil => intro l; simp [runQueueOps, opsAdds]
  | cons op rest ih =>
    intro l
    cases op with
    | add t =>
      have h := ih (l ++ [t])
      simp only [runQueueOps, TaskQueue.add_task, opsAdds, List.filterMap_cons] at *
      rw [h]
      simp
    | deq =>
      cases l with
      | nil =>
        have h := ih []
        simp only [runQueueOps, TaskQueue.get_next_task, opsAdds, List.filterMap_cons] at *
        simpa using h
      | cons a tl =>
        have h := ih tl
        simp only [runQueueOps, TaskQueue.get_next_task, opsAdds, List.filterMap_cons] at *
        simpa using h

/-! ## Claim C5: the TaskQueue is FIFO -/

/-- C5.  FIFO law of `TaskQueue`: for every interleaving of `add_task` and
`get_next_task` calls starting from the empty queue, the successfully
dequeued tasks (in call order) followed by the tasks still queued are
exactly the enqueued tasks in enqueue order — so dequeues hand tasks back in
exactly the order appends made, including tasks appended between dequeues —
and `get_next_task` on the empty queue returns the distinguished `none`
rather than raising. -/
theorem C5_fifo :
    (∀ ops : List QOp,
      ((runQueueOps ops ⟨[]⟩).2.filterMap id) ++ (runQueueOps ops ⟨[]⟩).1.tasks
        = opsAdds ops) ∧
    TaskQueue.get_next_task ⟨[]⟩ = (none, ⟨[]⟩) :=
  ⟨fun ops => by simpa using runQueueOps_fifo ops [], rfl⟩

/-! ## Claim C6: the file-to-service mapping rules -/

/-- C6 counterexample.  The claim's rule 3 ("the path contains some
individual responsibility word of length greater than 4") matches the path
`orders.py` for the responsibility "order handling" (word `order`), yet
`_map_files_to_service` assigns nothing: the source tests the *whole*
lower-cased responsibility string "order handling" as a substring, and no
other rule matches (no entities, no name token longer than 3). -/
theorem C6_counterexample :
    map_files_to_service svcResp ["orders.py"] [] = [] ∧
    claimResponsibilityWordRule svcResp (pyLower "orders.py") = true := by
  constructor
  · decide
  · decide

/-- C6 (amended).  A file is assigned to the boundary iff it is a candidate
and one of the four source rules matches: entity-in-path, name-token
(length > 3) in path, *whole responsibility string* (length > 4) in path, or
— for source-like extensions — entity in file content.  (The rules are
tested in that order with `continue` on first match; the resulting list is
the order-preserving filter of the candidates.) -/
theorem C6_amended (service : Service) (all_files : List String)
    (parsed_files : List (String × FileInfo)) (f : String) :
    f ∈ map_files_to_service service all_files parsed_files ↔
      (f ∈ all_files ∧
        (entityRule service (pyLower f) = true ∨
         namePartRule service (pyLower f) = true ∨
         responsibilityRule service (pyLower f) = true ∨
         (sourceLikeExtension f = true ∧
          contentRule service parsed_files f = true))) := by
  simp only [map_files_to_service, List.mem_filter, Bool.or_eq_true, Bool.and_eq_true]
  tauto

/-! ## Claim C1: `_ensure_complete_file_mapping` coverage -/

/-- C1 counterexample.  With one boundary listing only the unknown path
`ghost.py` and the discovered set `{a.py}`, the returned boundary list's
file union is `{ghost.py, a.py}`, a strict superset of the discovered set:
`ghost.py` stays covered but is not a discovered file, so the union does not
equal `F` exactly as the claim states. -/
theorem C1_counterexample :
    fileCovered (ensure_complete_file_mapping [svcGhost] ["a.py"]) "ghost.py" = true ∧
    ¬ ("ghost.py" ∈ ["a.py"]) := by
  constructor
  · decide
  · decide

/-- C1 (amended).  After `_ensure_complete_file_mapping(B, F)`: every file
of `F` is covered by the returned list (union ⊇ F); when the pre-existing
union already covers `F` nothing is appended; otherwise exactly one
synthetic `SharedOrUnassigned` boundary (empty entities and apis) holding
exactly the uncovered remainder is appended; and the union equals `F`
exactly under the additional hypothesis that every file listed by the input
boundaries is itself a discovered file. -/
theorem C1_amended (B : List Service) (F : List String) :
    (∀ f ∈ F, fileCovered (ensure_complete_file_mapping B F) f = true) ∧
    ((∀ f ∈ F, fileCovered B f = true) → ensure_complete_file_mapping B F = B) ∧
    ((¬ ∀ f ∈ F, fileCovered B f = true) →
      ensure_complete_file_mapping B F
        = B ++ [sharedOrUnassignedService
            (F.filter (fun f => !(fileCovered B f)))]) ∧
    ((∀ s ∈ B, ∀ f ∈ s.files, f ∈ F) →
      ∀ g, (fileCovered (ensure_complete_file_mapping B F) g = true ↔ g ∈ F)) := by
  by_cases hu : F.filter (fun f => !(fileCovered B f)) = []
  · have hcov : ∀ f ∈ F, fileCovered B f = true := by
      intro f hf
      have := List.filter_eq_nil_iff.mp hu f hf
      simpa using this
    have hens : ensure_complete_file_mapping B F = B := by
      simp [ensure_complete_file_mapping, hu]
    refine ⟨?_, fun _ => hens, fun hn => absurd hcov hn, ?_⟩
    · intro f hf; rw [hens]; exact hcov f hf
    · intro hs g
      rw [hens]
      constructor
      · intro hg
        rcases List.any_eq_true.mp hg with ⟨s, hsB, hgs⟩
        exact hs s hsB g (List.elem_iff.mp hgs)
      · intro hg; exact hcov g hg
  · have hens : ensure_complete_file_mapping B F
        = B ++ [sharedOrUnassignedService (F.filter (fun f => !(fileCovered B f)))] := by
      simp [ensure_complete_file_mapping, List.isEmpty_iff, hu]
    have hcov1 : ∀ f ∈ F, fileCovered (ensure_complete_file_mapping B F) f = true := by
      intro f hf
      rw [hens, fileCovered_append_singleton]
      by_cases hc : fileCovered B f = true
      · simp [hc]
      · have hmem : f ∈ F.filter (fun f => !(fileCovered B f)) :=
          List.mem_filter.mpr ⟨hf, by simp [hc]⟩
        have hcont : (sharedOrUnassignedService
            (F.filter (fun f => !(fileCovered B f)))).files.contains f = true := by
          simp [sharedOrUnassignedService, hmem]
        simp only [Bool.or_eq_true]
        exact Or.inr hcont
    refine ⟨hcov1, ?_, fun _ => hens, ?_⟩
    · intro hcov
      exfalso
      apply hu
      exact List.filter_eq_nil_iff.mpr (fun f hf => by simp [hcov f hf])
    · intro hs g
      constructor
      · intro hg
        rw [hens, fileCovered_append_singleton] at hg
        cases hB : fileCovered B g with
        | true =>
          rcases List.any_eq_true.mp hB with ⟨s, hsB, hgs⟩
          exact hs s hsB g (List.elem_iff.mp hgs)
        | false =>
          have hshared : (sharedOrUnassignedService
              (F.filter (fun f => !(fileCovered B f)))).files.contains g = true := by
            simpa [hB] using hg
          have hmem : g ∈ F ∧ fileCovered B g = false := by
            simpa [sharedOrUnassignedService, List.mem_filter] using hshared
          exact hmem.1
      · intro hg; exact hcov1 g hg

/-- C1 witness: the amended theorem applied to one boundary listing only the
unknown `ghost.py` against the discovered set `{a.py}`: the uncovered
remainder is non-empty, so exactly the synthetic boundary is appended. -/
theorem C1_amended_witness :
    ensure_complete_file_mapping [svcGhost] ["a.py"]
      = [svcGhost] ++ [sharedOrUnassignedService ["a.py"]] := by
  have h := (C1_amended [svcGhost] ["a.py"]).2.2.1 (by decide)
  exact h.trans (by decide)

/-! ## Claim C2: the direct-parse strategy on well-formed JSON -/

/-- C2.  The fenced direct-parse path is broken.  On a response whose
well-formed `files` JSON sits inside a fenced ```json block,
`_extract_json_from_response` searches for the impossible token of six
backticks followed by `json`, gets `-1`, and the slice from `-1` leaves only
the final backtick, so the direct parse (method 1) cannot see the payload;
with a parser oracle that accepts exactly the intended payload, the cascade
ends in the always-empty regex fallback (method 3).  The same payload
without a fence is recovered by method 1 — the failure is the fence
handling, not the parser. -/
theorem C2_fenced_direct_parse_bug :
    extract_json_from_response fencedContent = "`" ∧
    robust_json_extraction loadsC2 fencedContent = ([], 3) ∧
    robust_json_extraction loadsC2 plainContent = ([⟨"a.py", "x"⟩], 1) := by
  refine ⟨?_, ?_, ?_⟩ <;> decide

/-! ## Claim C3: `refactor_code` never returns zero files -/

theorem create_service_files_length (t : Template) (b : Service) :
    (t.create_service_files b).length = (t.generate_main_files b.name).length + 4 := by
  simp [Template.create_service_files]

theorem factory_create_service_files_ne_nil (b : Service)
    (co : List (String × FileInfo)) : factory_create_service_files b co ≠ [] := by
  intro h
  have hl := create_service_files_length (get_template (detect_language co)) b
  rw [show (get_template (detect_language co)).create_service_files b
      = factory_create_service_files b co from rfl, h] at hl
  simp at hl

theorem dictInsert_ne_nil {α : Type} (d : List (String × α)) (k : String) (v : α) :
    dictInsert d k v ≠ [] := by
  cases d with
  | nil => simp [dictInsert]
  | cons kv t => by_cases h : kv.1 = k <;> simp [dictInsert, h]

theorem foldl_dictInsert_ne_nil (l : List FileRec) :
    ∀ acc : List (String × FileRec), acc ≠ [] →
      (l.foldl (fun acc f => dictInsert acc f.path f) acc) ≠ [] := by
  induction l with
  | nil => intro acc h; simpa using h
  | cons f t ih => intro acc _; exact ih _ (dictInsert_ne_nil acc f.path f)

theorem dedupByPath_ne_nil (f : FileRec) (fs : List FileRec) :
    dedupByPath (f :: fs) ≠ [] := by
  simp only [dedupByPath, List.foldl_cons, ne_eq, List.map_eq_nil_iff]
  exact foldl_dictInsert_ne_nil fs _ (dictInsert_ne_nil _ _ _)

/-- C3 counterexample.  A call whose single batch yields no extracted files
(the parser rejects everything, the response is prose) returns the template
scaffold of the Generic language — six files (README.md, main.txt,
config.txt, Dockerfile, .gitignore, docker-compose.yml) — not the single
explanatory placeholder file the claim describes. -/
theorem C3_counterexample :
    collectBatchFiles noLoads garbageLlm (chunks6 [("config.xml", fiXml)]) 0 = [] ∧
    (refactor_code noLoads garbageLlm svcPlain [("config.xml", fiXml)]).files.length = 6 ∧
    ¬ ((refactor_code noLoads garbageLlm svcPlain
        [("config.xml", fiXml)]).files.length = 1) := by
  refine ⟨?_, ?_, ?_⟩ <;> decide

/-- C3 (amended).  When the JSON extraction yields no files across all
batches, `refactor_code` returns the language-template scaffold
(`TemplateFactory.create_service_files`, at least four files: README, the
language's main files, Dockerfile, .gitignore, docker-compose.yml); and its
returned file list is never empty on any input. -/
theorem C3_amended (loads : String → Option LoadedDoc) (llm : Nat → Option String)
    (b : Service) (code : List (String × FileInfo)) :
    (collectBatchFiles loads llm (chunks6 code) 0 = [] →
      (refactor_code loads llm b code).files = factory_create_service_files b code) ∧
    (refactor_code loads llm b code).files ≠ [] := by
  by_cases hc : code.isEmpty = true
  · have hnil : code = [] := by simpa [List.isEmpty_iff] using hc
    subst hnil
    exact ⟨fun _ => rfl, factory_create_service_files_ne_nil b []⟩
  · by_cases hm : collectBatchFiles loads llm (chunks6 code) 0 = []
    · constructor
      · intro _
        simp [refactor_code, hc, hm]
      · simp [refactor_code, hc, hm]
        exact factory_create_service_files_ne_nil b code
    · constructor
      · intro h; exact absurd h hm
      · cases hmm : collectBatchFiles loads llm (chunks6 code) 0 with
        | nil => exact absurd hmm hm
        | cons f fs =>
          simp [refactor_code, hc, hmm]
          exact dedupByPath_ne_nil f fs

/-- C3 witness: the amended theorem at the concrete failing call — the run
whose batch yields nothing falls back to the template scaffold, which is
non-empty. -/
theorem C3_amended_witness :
    (refactor_code noLoads garbageLlm svcPlain [("config.xml", fiXml)]).files
      = factory_create_service_files svcPlain [("config.xml", fiXml)] ∧
    (refactor_code noLoads garbageLlm svcPlain [("config.xml", fiXml)]).files ≠ [] :=
  ⟨(C3_amended noLoads garbageLlm svcPlain [("config.xml", fiXml)]).1 (by decide),
   (C3_amended noLoads garbageLlm svcPlain [("config.xml", fiXml)]).2⟩

/-! ## Claim C4: unknown collaborator / unknown operation handling -/

/-- C4 counterexample.  With no collaborator registered, the run's seed task
is dequeued and skipped: the run completes and the returned outcome mapping
is *empty* — in particular it holds no `CollaboratorNotFound` failure under
the seed task's id, contrary to the claim.  The same happens when the
collaborator exists but the operation does not. -/
theorem C4_counterexample :
    process_codebase envNone "http://r" 2 = some [] ∧
    (process_codebase envNone "http://r" 2).map
      (fun rs => dictHasKey rs taskSeed.tid) = some false ∧
    process_codebase envNoAction "http://r" 2 = some [] := by
  refine ⟨?_, ?_, ?_⟩ <;> decide

/-- C4 (amended).  A dequeued task whose collaborator is not registered, or
whose operation is not an attribute of the collaborator, is skipped: the
loop records *nothing* for it (the outcome mapping is passed on unchanged),
derives no follow-up tasks from it, and continues with the remaining
queue. -/
theorem C4_amended (env : OrchestratorEnv) (fuel : Nat) (t : Task)
    (rest : List Task) (results : List (String × RDict))
    (parsed : List (String × FileInfo)) (ctr : Nat) :
    (env.registered t.agent = false →
      process_loop env (fuel + 1) (t :: rest) results parsed ctr
        = process_loop env fuel rest results parsed ctr) ∧
    (env.registered t.agent = true → env.has_action t.agent t.action = false →
      process_loop env (fuel + 1) (t :: rest) results parsed ctr
        = process_loop env fuel rest results parsed ctr) := by
  constructor
  · intro h; simp [process_loop, h]
  · intro h1 h2; simp [process_loop, h1, h2]

/-- C4 witness: the amended skip equations at concrete runs (no registered
collaborator; collaborator without the operation). -/
theorem C4_amended_witness :
    process_loop envNone 1 [taskSeed] [] [] 1 = process_loop envNone 0 [] [] [] 1 ∧
    process_loop envNoAction 1 [taskSeed] [] [] 1
      = process_loop envNoAction 0 [] [] [] 1 :=
  ⟨(C4_amended envNone 0 taskSeed [] [] [] 1).1 rfl,
   (C4_amended envNoAction 0 taskSeed [] [] [] 1).2 rfl rfl⟩

/-! ## Claim C8: an exception during a task marks it failed and the run
continues -/

/-- C8.  When a dequeued task's operation raises, the loop records
`{"error": message}` under exactly that task's id, derives no follow-up
tasks, and continues with the remaining queue; every other id's outcome is
untouched by the recording. -/
theorem C8_execution_error (env : OrchestratorEnv) (fuel : Nat) (t : Task)
    (rest : List Task) (results : List (String × RDict))
    (parsed : List (String × FileInfo)) (ctr : Nat) (msg : String) (other : String)
    (h1 : env.registered t.agent = true) (h2 : env.has_action t.agent t.action = true)
    (h3 : env.exec t.agent t.action t.params = ExecResult.exn msg) :
    process_loop env (fuel + 1) (t :: rest) results parsed ctr
      = process_loop env fuel rest (dictInsert results t.tid (errorDict msg)) parsed ctr ∧
    dictGet? (dictInsert results t.tid (errorDict msg)) t.tid = some (errorDict msg) ∧
    (other ≠ t.tid →
      dictGet? (dictInsert results t.tid (errorDict msg)) other
        = dictGet? results other) := by
  refine ⟨?_, dictGet?_insert_self results t.tid (errorDict msg),
    fun ho => dictGet?_insert_ne results t.tid other (errorDict msg) ho⟩
  simp [process_loop, h1, h2, h3]

/-- C8 witness: the failing-operation run at a concrete environment — the
seed task's exception is recorded under its id and the loop goes on. -/
theorem C8_execution_error_witness :
    process_loop envExn 1 [taskSeed] [] [] 1
      = process_loop envExn 0 [] (dictInsert [] taskSeed.tid (errorDict "boom")) [] 1 ∧
    dictGet? (dictInsert ([] : List (String × RDict)) taskSeed.tid (errorDict "boom"))
        taskSeed.tid = some (errorDict "boom") ∧
    dictGet? (dictInsert ([] : List (String × RDict)) taskSeed.tid (errorDict "boom")) "x"
      = dictGet? ([] : List (String × RDict)) "x" := by
  have h := C8_execution_error envExn 0 taskSeed [] [] [] 1 "boom" "x" rfl rfl rfl
  exact ⟨h.1, h.2.1, h.2.2 (by decide)⟩

/-! ## Claim C7: the terminal audit mutates nothing and attaches nothing -/

theorem classifyStep_partition (l : List RDict) :
    ∀ acc : List String × List String,
      (l.foldl classifyStep acc).1.length + (l.foldl classifyStep acc).2.length
        = acc.1.length + acc.2.length + l.length := by
  induction l with
  | nil => intro acc; simp
  | cons v t ih =>
    intro acc
    simp only [List.foldl_cons]
    rw [ih]
    cases hb : isFailedOutput (v.files.getD []) <;> simp [classifyStep, hb] <;> omega

/-- C7 counterexample.  A concrete three-stage run returns *exactly* the
task-id-to-outcome mapping the loop recorded — three entries, all task
outcomes — with no audit summary attached to it, although the audit summary
(totals, succeeded and failed service names) is computed: the claim's
"attached to the value returned by the run" is false. -/
theorem C7_counterexample :
    process_codebase env1 "http://r" 10 = some expectedRun1 ∧
    validate_complete_coverage expectedRun1 [("a.py", fiPy)]
      = { developer_output_count := 1, total_files := 1, total_generated_files := 1,
          unique_generated_paths := ["OrderService/x.py"],
          failed_services := [], successful_services := ["OrderService"] } := by
  constructor <;> decide

/-- C7 (amended).  The audit never mutates a recorded outcome: whatever
outcome mapping the drain loop produced is returned as-is by
`process_codebase` (the audit summary is computed for logging only and
attached to nothing); and the audit itself classifies every developer
output into exactly one of `failed_services` / `successful_services`. -/
theorem C7_amended (env : OrchestratorEnv) (repo : String) (fuel : Nat) :
    (∀ (results : List (String × RDict)) (parsed : List (String × FileInfo)),
      process_loop env fuel
          [⟨"analyzer", "analyze_repository", TaskParams.analyzeRepo repo, 0⟩] [] [] 1
        = some (results, parsed) →
      process_codebase env repo fuel = some results) ∧
    (∀ (results : List (String × RDict)) (parsed : List (String × FileInfo)),
      (validate_complete_coverage results parsed).failed_services.length
        + (validate_complete_coverage results parsed).successful_services.length
        = (developerOutputs results).length) := by
  constructor
  · intro results parsed h
    simp [process_codebase, h]
  · intro results parsed
    simp only [validate_complete_coverage]
    simpa using classifyStep_partition (developerOutputs results) ([], [])

/-- C7 witness: the amended return-value equation at the concrete
three-stage run. -/
theorem C7_amended_witness :
    process_codebase env1 "http://r" 10 = some expectedRun1 :=
  (C7_amended env1 "http://r" 10).1 expectedRun1 [("a.py", fiPy)] (by decide)

/-! ## Claim C10: silent intersection with the discovered files -/

theorem dictHasKey_eq {α : Type} (d : List (String × α)) (k : String) :
    dictHasKey d k = (dictGet? d k).isSome := rfl

theorem dictHasKey_insert {α : Type} (d : List (String × α)) (k k' : String) (v : α) :
    dictHasKey (dictInsert d k v) k' = ((k' == k) || dictHasKey d k') := by
  by_cases h : k' = k
  · subst h
    simp [dictHasKey_eq, dictGet?_insert_self]
  · simp [dictHasKey_eq, dictGet?_insert_ne d k k' v h, beq_eq_false_iff_ne.mpr h]

theorem buildCodeDict_key_aux (parsed : List (String × FileInfo)) (f : String) :
    ∀ (files : List String) (acc : List (String × FileInfo)),
      dictHasKey (files.foldl (fun acc g =>
          match dictGet? parsed g with
          | some v => dictInsert acc g v
          | none => acc) acc) f
        = (dictHasKey acc f || (files.contains f && dictHasKey parsed f)) := by
  intro files
  induction files with
  | nil => intro acc; simp
  | cons g t ih =>
    intro acc
    simp only [List.foldl_cons]
    cases hg : dictGet? parsed g with
    | none =>
      rw [ih acc]
      by_cases hf : f = g
      · subst hf
        simp [dictHasKey_eq, hg]
      · simp [List.elem_cons, hf]
    | some v =>
      rw [ih (dictInsert acc g v), dictHasKey_insert]
      by_cases hf : f = g
      · subst hf
        simp [dictHasKey_eq, hg, List.elem_cons]
      · simp [List.elem_cons, hf, beq_eq_false_iff_ne.mpr hf]

theorem buildCodeDict_key (files : List String) (parsed : List (String × FileInfo))
    (f : String) :
    dictHasKey (buildCodeDict files parsed) f
      = (files.contains f && dictHasKey parsed f) := by
  have h := buildCodeDict_key_aux parsed f files []
  simpa [buildCodeDict, dictHasKey_eq, dictGet?] using h

theorem buildCodeDict_all_unknown (parsed : List (String × FileInfo)) :
    ∀ files : List String, (∀ f ∈ files, dictHasKey parsed f = false) →
      buildCodeDict files parsed = [] := by
  intro files
  induction files with
  | nil => intro _; rfl
  | cons g t ih =>
    intro h
    have hg : dictGet? parsed g = none := by
      cases hq : dictGet? parsed g with
      | none => rfl
      | some v =>
        have hh := h g (by simp)
        rw [dictHasKey_eq, hq] at hh
        simp at hh
    have ht := ih (fun f hf => h f (by simp [hf]))
    simpa [buildCodeDict, List.foldl_cons, hg] using ht

theorem devTaskStep_fold (parsed : List (String × FileInfo)) :
    ∀ (l : List Service) (acc : List Task × Nat),
      (l.foldl (devTaskStep parsed) acc).1.map Task.params
        = acc.1.map Task.params
          ++ (l.filter (fun s => !(buildCodeDict s.files parsed).isEmpty)).map
              (fun s => TaskParams.developerParams s (buildCodeDict s.files parsed)) := by
  intro l
  induction l with
  | nil => intro acc; simp
  | cons s t ih =>
    intro acc
    simp only [List.foldl_cons]
    cases hb : (buildCodeDict s.files parsed).isEmpty with
    | true =>
      rw [ih]
      simp [devTaskStep, hb]
    | false =>
      rw [ih]
      simp [devTaskStep, hb]

/-- C10.  In follow-up derivation after `identify_service_boundaries`, each
boundary's listed files are silently intersected with the discovered files:
the developer tasks created are exactly those for boundaries (after the
coverage completion step) whose intersection is non-empty, each carrying
that intersection as its `original_code`; the built dict has a key iff it is
both listed and discovered; and a boundary all of whose listed paths are
unknown contributes no developer task, because its built dict is empty. -/
theorem C10_follow_up_intersection (p : TaskParams) (i : Nat) (result : RDict)
    (parsed : List (String × FileInfo)) (ctr : Nat) :
    ((generate_follow_up_tasks ⟨"architect", "identify_service_boundaries", p, i⟩
        result parsed ctr).1.map Task.params
      = ((ensure_complete_file_mapping (service_list_of result)
            (parsed.map Prod.fst)).filter
          (fun s => !(buildCodeDict s.files parsed).isEmpty)).map
          (fun s => TaskParams.developerParams s (buildCodeDict s.files parsed))) ∧
    (∀ (files : List String) (f : String),
      dictHasKey (buildCodeDict files parsed) f
        = (files.contains f && dictHasKey parsed f)) ∧
    (∀ s : Service, (∀ f ∈ s.files, dictHasKey parsed f = false) →
      buildCodeDict s.files parsed = []) := by
  refine ⟨?_, fun files f => buildCodeDict_key files parsed f,
    fun s hs => buildCodeDict_all_unknown parsed s.files hs⟩
  have hfold := devTaskStep_fold parsed
    (ensure_complete_file_mapping (service_list_of result) (parsed.map Prod.fst))
    ([], ctr)
  simpa [generate_follow_up_tasks] using hfold

end MSM
